import Mathlib

set_option maxRecDepth 8000

/-!
Verification of the GlucoGuide dashboard's client-side view-state model.

Shallow embedding of the four screens' interaction logic:
* `Chat`    — ChatSection (messages, draft, isLoading, mock 1000 ms reply timer)
* `MealSim` — MealSimulator (form, isSimulating, showPrediction, mock 2000 ms timer)
* `Trends`  — TrendsSection (date range / meal filter state, fixed sample series)
* `Nav`     — AppSidebar's isActive route predicate

JavaScript strings become `String`, `Date.now()` becomes an explicit `Nat`
clock value (milliseconds) supplied at each event, `setTimeout` becomes an
explicit FIFO list of scheduled fire times carried in the state, and each
React event handler becomes a pure state-transition function.
-/

/-- JavaScript's `String.prototype.trim()`: the string with leading and
trailing whitespace removed. Defined by structural recursion over the
character list (Lean's own `String.trim` computes the same result through
byte positions, which the kernel cannot reduce). -/
def jsTrim (s : String) : String :=
  ⟨((s.data.dropWhile Char.isWhitespace).reverse.dropWhile Char.isWhitespace).reverse⟩

namespace Chat

/-- Message author, the `type` field of the source's `ChatMessage`
(`'user' | 'agent'`). -/
inductive Author where
  | user : Author
  | agent : Author
deriving DecidableEq, Repr

/-- The source's `ChatMessage` interface: `id` is a string
(`Date.now().toString()` at creation, or the literal `'1'` for the initial
greeting), `timestamp` is the creation-time clock value (`new Date()`). -/
structure ChatMessage where
  id : String
  type : Author
  content : String
  timestamp : Nat
deriving DecidableEq, Repr

/-- Content of the initial agent greeting message. -/
def greetingText : String :=
  "Hello! I'm your GlucoGuide Agent. I can help you understand your blood sugar patterns, simulate meal impacts, and provide personalized insights. What would you like to know?"

/-- Content of the canned agent reply produced by the mock 1000 ms timer. -/
def cannedReplyText : String :=
  "I understand your question about glucose patterns. Based on typical patterns, let me analyze this for you. This is a demo response - in the full version, I'd connect to your AWS Bedrock agent for personalized insights."

/-- The ChatSection component state: `messages`, `inputMessage` (the draft),
`isLoading` (the spec's `awaitingReply`), plus the explicit model of the
pending `setTimeout` callbacks: the scheduled fire times, in scheduling
order (all delays are the fixed 1000 ms, so scheduling order is firing
order). -/
structure ChatState where
  messages : List ChatMessage
  inputMessage : String
  isLoading : Bool
  timers : List Nat
deriving DecidableEq, Repr

/-- `useState` initial values of ChatSection, mounted at clock value `t0`:
one agent greeting with id `'1'`, empty draft, not loading, no timer. -/
def initialState (t0 : Nat) : ChatState :=
  { messages := [{ id := "1", type := .agent, content := greetingText, timestamp := t0 }]
    inputMessage := ""
    isLoading := false
    timers := [] }

/-- `handleSendMessage`, invoked with the clock at `now`.
`if (!inputMessage.trim()) return;` — a JavaScript string is falsy exactly
when it is empty, so the guard rejects exactly the drafts that trim to `""`.
Otherwise it appends the user message (id `Date.now().toString()`, content
the untrimmed draft), clears the draft, sets `isLoading`, and schedules the
mock-reply callback 1000 ms later. -/
def handleSendMessage (now : Nat) (s : ChatState) : ChatState :=
  if jsTrim s.inputMessage = "" then s
  else
    { messages := s.messages ++
        [{ id := Nat.repr now, type := .user, content := s.inputMessage, timestamp := now }]
      inputMessage := ""
      isLoading := true
      timers := s.timers ++ [now + 1000] }

/-- Body of the `setTimeout` callback inside `handleSendMessage`, run when
the clock reaches `now`: appends the canned agent reply with id
`(Date.now() + 1).toString()` and clears `isLoading`; the fired timer is
consumed from the front of the FIFO schedule. -/
def mockReplyFire (now : Nat) (s : ChatState) : ChatState :=
  { s with
    messages := s.messages ++
      [{ id := Nat.repr (now + 1), type := .agent, content := cannedReplyText, timestamp := now }]
    isLoading := false
    timers := s.timers.drop 1 }

/-- The send button's enabled condition: the source renders
`disabled={!inputMessage.trim() || isLoading}`. -/
def sendButtonEnabled (s : ChatState) : Bool :=
  !(jsTrim s.inputMessage = "" || s.isLoading)

/-- The user-visible events of ChatSection. `setDraft` is the input's
`onChange` (it also covers the quick-action buttons, which assign fixed
prompt strings to the draft). `pressEnter` is the input's
`onKeyPress={(e) => e.key === 'Enter' && handleSendMessage()}`, which calls
`handleSendMessage` unconditionally. `clickSend` is the send button, which
reaches `handleSendMessage` only while the button is enabled. `fireTimer`
is the elapse of the earliest scheduled mock-reply timeout, valid only when
the clock matches its scheduled fire time. -/
inductive Event where
  | setDraft (text : String) : Event
  | pressEnter (now : Nat) : Event
  | clickSend (now : Nat) : Event
  | fireTimer (now : Nat) : Event

/-- One step of the ChatSection state machine. -/
def step (s : ChatState) (e : Event) : ChatState :=
  match e with
  | .setDraft text => { s with inputMessage := text }
  | .pressEnter now => handleSendMessage now s
  | .clickSend now => if sendButtonEnabled s then handleSendMessage now s else s
  | .fireTimer now => if s.timers.head? = some now then mockReplyFire now s else s

/-- Run a sequence of events from a state. -/
def run (s : ChatState) (es : List Event) : ChatState :=
  es.foldl step s

/-- The spec's `appendUserMessage(text)` at clock `now`: the send handler
invoked on a conversation state whose draft holds `text` (the handler
reads the draft; the spec's `text` argument and the current draft are the
same thing at the moment of sending). -/
def appendUserMessage (text : String) (now : Nat) (s : ChatState) : ChatState :=
  handleSendMessage now { s with inputMessage := text }

/-- The message id an event can create: a send at clock `now` creates id
`now.toString()`; a timer firing at clock `now` creates id
`(now + 1).toString()`; a draft edit creates none. -/
def eventIds : Event → List String
  | .setDraft _ => []
  | .pressEnter now => [Nat.repr now]
  | .clickSend now => [Nat.repr now]
  | .fireTimer now => [Nat.repr (now + 1)]

end Chat

namespace MealSim

/-- The source's `MealForm` interface: all four fields are strings (the
two numeric inputs hold numeric strings, `gi` holds the select value). -/
structure MealForm where
  description : String
  carbs : String
  gi : String
  insulin : String
deriving DecidableEq, Repr

/-- The MealSimulator component state: the form, `isSimulating` (the
spec's `pending`), `showPrediction`, plus the explicit FIFO schedule of
pending `setTimeout` fire times (all delays are the fixed 2000 ms). -/
structure MealSimState where
  mealForm : MealForm
  isSimulating : Bool
  showPrediction : Bool
  timers : List Nat
deriving DecidableEq, Repr

/-- `useState` initial values of MealSimulator: empty form, not
simulating, prediction hidden. -/
def initialState : MealSimState :=
  { mealForm := { description := "", carbs := "", gi := "", insulin := "" }
    isSimulating := false
    showPrediction := false
    timers := [] }

/-- One row of the hardcoded `predictionData` sample array. -/
structure PredictionPoint where
  time : Nat
  predicted_glucose : Nat
  baseline : Nat
deriving DecidableEq, Repr

/-- The fixed sample prediction series rendered after a simulation. -/
def predictionData : List PredictionPoint :=
  [ { time := 0,   predicted_glucose := 95,  baseline := 95 },
    { time := 15,  predicted_glucose := 98,  baseline := 95 },
    { time := 30,  predicted_glucose := 115, baseline := 95 },
    { time := 45,  predicted_glucose := 135, baseline := 95 },
    { time := 60,  predicted_glucose := 155, baseline := 95 },
    { time := 75,  predicted_glucose := 145, baseline := 95 },
    { time := 90,  predicted_glucose := 130, baseline := 95 },
    { time := 105, predicted_glucose := 120, baseline := 95 },
    { time := 120, predicted_glucose := 110, baseline := 95 },
    { time := 135, predicted_glucose := 105, baseline := 95 },
    { time := 150, predicted_glucose := 100, baseline := 95 },
    { time := 165, predicted_glucose := 98,  baseline := 95 },
    { time := 180, predicted_glucose := 95,  baseline := 95 } ]

/-- `handleSimulate`, invoked with the clock at `now`.
`if (!mealForm.description || !mealForm.carbs) return;` — a JavaScript
string is falsy exactly when it is the empty string (no trimming here).
Otherwise it sets `isSimulating` and schedules the result callback
2000 ms later. -/
def handleSimulate (now : Nat) (s : MealSimState) : MealSimState :=
  if s.mealForm.description = "" || s.mealForm.carbs = "" then s
  else { s with isSimulating := true, timers := s.timers ++ [now + 2000] }

/-- Body of the `setTimeout` callback inside `handleSimulate`: clears
`isSimulating` and shows the prediction; the fired timer is consumed from
the front of the FIFO schedule. -/
def simulationFire (s : MealSimState) : MealSimState :=
  { s with isSimulating := false, showPrediction := true, timers := s.timers.drop 1 }

/-- The Simulate Impact button's enabled condition: the source renders
`disabled={!mealForm.description || !mealForm.carbs || isSimulating}`. -/
def simulateButtonEnabled (s : MealSimState) : Bool :=
  !(s.mealForm.description = "" || s.mealForm.carbs = "" || s.isSimulating)

/-- A click on the Simulate Impact button — the only call site of
`handleSimulate` — which reaches the handler only while the button is
enabled. -/
def clickSimulate (now : Nat) (s : MealSimState) : MealSimState :=
  if simulateButtonEnabled s then handleSimulate now s else s

/-- The elapse of the earliest scheduled simulation timeout, valid only
when the clock matches its scheduled fire time. -/
def fireSimulation (now : Nat) (s : MealSimState) : MealSimState :=
  if s.timers.head? = some now then simulationFire s else s

/-- A form field name, for `handleInputChange(field, value)`. -/
inductive Field where
  | description : Field
  | carbs : Field
  | gi : Field
  | insulin : Field

/-- `handleInputChange`: unconditional assignment of one form field. -/
def handleInputChange (field : Field) (value : String) (s : MealSimState) : MealSimState :=
  { s with
    mealForm :=
      match field with
      | .description => { s.mealForm with description := value }
      | .carbs => { s.mealForm with carbs := value }
      | .gi => { s.mealForm with gi := value }
      | .insulin => { s.mealForm with insulin := value } }

/-- One entry of the hardcoded `presetMeals` array. -/
structure Preset where
  name : String
  carbs : String
  gi : String
deriving DecidableEq, Repr

/-- The four fixed preset meals. -/
def presetMeals : List Preset :=
  [ { name := "Oatmeal with Banana", carbs := "45", gi := "medium" },
    { name := "White Bread Toast (2 slices)", carbs := "30", gi := "high" },
    { name := "Greek Yogurt with Berries", carbs := "20", gi := "low" },
    { name := "Pasta with Tomato Sauce", carbs := "60", gi := "medium" } ]

/-- The preset button's `onClick`: `setMealForm({ description: meal.name,
carbs: meal.carbs, gi: meal.gi, insulin: "" })` — a whole-form assignment
whose `insulin` field is the empty string. -/
def applyPreset (meal : Preset) (s : MealSimState) : MealSimState :=
  { s with
    mealForm :=
      { description := meal.name, carbs := meal.carbs, gi := meal.gi, insulin := "" } }

end MealSim

namespace Trends

/-- One row of the hardcoded `glucoseData` sample array (`meal: null`
becomes `none`). -/
structure GlucosePoint where
  time : String
  glucose : Nat
  meal : Option String
deriving DecidableEq, Repr

/-- The fixed sample glucose series, a module-level constant. -/
def glucoseData : List GlucosePoint :=
  [ { time := "6:00",  glucose := 95,  meal := none },
    { time := "7:00",  glucose := 110, meal := some "Breakfast" },
    { time := "8:00",  glucose := 145, meal := none },
    { time := "9:00",  glucose := 130, meal := none },
    { time := "10:00", glucose := 115, meal := none },
    { time := "11:00", glucose := 105, meal := none },
    { time := "12:00", glucose := 98,  meal := some "Lunch" },
    { time := "13:00", glucose := 165, meal := none },
    { time := "14:00", glucose := 140, meal := none },
    { time := "15:00", glucose := 120, meal := none },
    { time := "16:00", glucose := 108, meal := none },
    { time := "17:00", glucose := 102, meal := none },
    { time := "18:00", glucose := 95,  meal := some "Dinner" },
    { time := "19:00", glucose := 175, meal := none },
    { time := "20:00", glucose := 155, meal := none },
    { time := "21:00", glucose := 125, meal := none },
    { time := "22:00", glucose := 110, meal := none } ]

/-- The `dateRange` state object `{ start, end }` (`end` is a Lean
keyword, hence the renamed fields `startDate`/`endDate`). -/
structure DateRange where
  startDate : String
  endDate : String
deriving DecidableEq, Repr

/-- The TrendsSection component state: the stored date range and meal
filter. -/
structure TrendsState where
  dateRange : DateRange
  mealFilter : String
deriving DecidableEq, Repr

/-- `useState` initial values of TrendsSection. -/
def initialState : TrendsState :=
  { dateRange := { startDate := "2025-01-20", endDate := "2025-01-25" }, mealFilter := "all" }

/-- The start-date input's `onChange`:
`setDateRange(prev => ({ ...prev, start: v }))`. -/
def setStartDate (v : String) (s : TrendsState) : TrendsState :=
  { s with dateRange := { s.dateRange with startDate := v } }

/-- The end-date input's `onChange`:
`setDateRange(prev => ({ ...prev, end: v }))`. -/
def setEndDate (v : String) (s : TrendsState) : TrendsState :=
  { s with dateRange := { s.dateRange with endDate := v } }

/-- The meal-filter select's `onValueChange={setMealFilter}`. -/
def setMealFilter (v : String) (s : TrendsState) : TrendsState :=
  { s with mealFilter := v }

/-- What the TrendsSection render displays: the chart series and the
three summary statistics. -/
structure TrendsView where
  series : List GlucosePoint
  averageGlucose : String
  timeInRange : String
  variability : String
deriving DecidableEq, Repr

/-- The TrendsSection render as a function of the component state: the
chart consumes the module-level constant `glucoseData` and the three
summary cards are the hardcoded literals `118 mg/dL`, `78%`, `Medium`;
the stored state reaches only the input controls, never the chart or the
statistics. -/
def renderTrends (_s : TrendsState) : TrendsView :=
  { series := glucoseData
    averageGlucose := "118 mg/dL"
    timeInRange := "78%"
    variability := "Medium" }

end Trends

namespace Nav

/-- AppSidebar's route predicate
`const isActive = (path: string) => currentPath === path;`, with the
component's captured `currentPath` made an explicit first argument. -/
def isActive (currentPath path : String) : Bool :=
  currentPath == path

end Nav

namespace Fixtures

/-- Concrete simulator state with a filled-in form, used as test input. -/
def toastForm : MealSim.MealSimState :=
  { mealForm := { description := "Toast", carbs := "30", gi := "", insulin := "" }
    isSimulating := false
    showPrediction := false
    timers := [] }

/-- Concrete simulator state whose insulin field holds `"4"`, used as
test input. -/
def insulinForm : MealSim.MealSimState :=
  { mealForm := { description := "d", carbs := "9", gi := "low", insulin := "4" }
    isSimulating := false
    showPrediction := false
    timers := [] }

/-- The first fixed preset, used as test input. -/
def oatmealPreset : MealSim.Preset :=
  { name := "Oatmeal with Banana", carbs := "45", gi := "medium" }

end Fixtures

/-!
Theorems. One theorem per claim, with auxiliary lemmas for the id-uniqueness
argument of the chat conversation.
-/

/-- Auxiliary: one chat step either leaves the message-id list unchanged or
extends it by exactly the id `eventIds` assigns to the event. -/
theorem chat_step_ids (s : Chat.ChatState) (e : Chat.Event) :
    (Chat.step s e).messages.map (fun m => m.id) = s.messages.map (fun m => m.id)
    ∨ (Chat.step s e).messages.map (fun m => m.id)
        = s.messages.map (fun m => m.id) ++ Chat.eventIds e := by
  cases e with
  | setDraft t => exact Or.inl rfl
  | pressEnter now =>
      by_cases h : jsTrim s.inputMessage = ""
      · exact Or.inl (by simp [Chat.step, Chat.handleSendMessage, h])
      · exact Or.inr (by simp [Chat.step, Chat.handleSendMessage, h, Chat.eventIds])
  | clickSend now =>
      by_cases h : jsTrim s.inputMessage = ""
      · exact Or.inl (by simp [Chat.step, Chat.sendButtonEnabled, Chat.handleSendMessage, h])
      · by_cases hl : s.isLoading
        · exact Or.inl (by simp [Chat.step, Chat.sendButtonEnabled, hl])
        · exact Or.inr (by
            simp [Chat.step, Chat.sendButtonEnabled, Chat.handleSendMessage, h, hl, Chat.eventIds])
  | fireTimer now =>
      by_cases h : s.timers.head? = some now
      · exact Or.inr (by simp [Chat.step, Chat.mockReplyFire, h, Chat.eventIds])
      · exact Or.inl (by simp [Chat.step, h])

/-- Auxiliary: over any event sequence, the run's message-id list is a
sublist of the starting ids followed by the ids the events can create. -/
theorem chat_run_ids_sublist (es : List Chat.Event) (s : Chat.ChatState) :
    List.Sublist ((Chat.run s es).messages.map (fun m => m.id))
      (s.messages.map (fun m => m.id) ++ es.flatMap Chat.eventIds) := by
  induction es generalizing s with
  | nil => simp [Chat.run]
  | cons e es ih =>
      have h1 := ih (Chat.step s e)
      have h2 : Chat.run s (e :: es) = Chat.run (Chat.step s e) es := rfl
      rw [h2]
      rcases chat_step_ids s e with h | h
      · refine h1.trans ?_
        rw [h]
        simp only [List.flatMap_cons]
        exact List.Sublist.append_left (List.sublist_append_right _ _) _
      · refine h1.trans ?_
        rw [h]
        simp only [List.flatMap_cons, List.append_assoc]
        exact List.Sublist.refl _

/-- Claim C6 (amended): in every chat conversation state reached by a
schedule of draft edits, user sends and mock-reply resolutions, the message
ids are pairwise distinct, provided the schedule's clock-derived id strings
(the send-time for each user message, fire-time + 1 for each agent message)
are pairwise distinct and distinct from the initial greeting's id `"1"`.
As stated over all schedules the claim fails: ids come from the clock, so a
send sharing its millisecond with another send, or landing exactly 1 ms
after a resolution, duplicates an id (see the counterexample). -/
theorem chat_message_ids_nodup (t0 : Nat) (es : List Chat.Event)
    (h : ("1" :: es.flatMap Chat.eventIds).Nodup) :
    ((Chat.run (Chat.initialState t0) es).messages.map (fun m => m.id)).Nodup := by
  have hs := chat_run_ids_sublist es (Chat.initialState t0)
  have hid : (Chat.initialState t0).messages.map (fun m => m.id) = ["1"] := rfl
  rw [hid] at hs
  exact h.sublist hs

/-- Witness for `chat_message_ids_nodup`: a concrete 5-event schedule whose
derived ids `"1000"`, `"2001"`, `"3000"` are distinct, so the final
conversation's ids are pairwise distinct. -/
theorem chat_message_ids_nodup_witness :
    ("1" :: ([Chat.Event.setDraft "hi", Chat.Event.pressEnter 1000, Chat.Event.fireTimer 2000,
        Chat.Event.setDraft "yo", Chat.Event.clickSend 3000].flatMap Chat.eventIds)).Nodup
    ∧ ((Chat.run (Chat.initialState 0)
        [Chat.Event.setDraft "hi", Chat.Event.pressEnter 1000, Chat.Event.fireTimer 2000,
         Chat.Event.setDraft "yo", Chat.Event.clickSend 3000]).messages.map
        (fun m => m.id)).Nodup :=
  ⟨by decide,
   chat_message_ids_nodup 0
     [Chat.Event.setDraft "hi", Chat.Event.pressEnter 1000, Chat.Event.fireTimer 2000,
      Chat.Event.setDraft "yo", Chat.Event.clickSend 3000] (by decide)⟩

/-- Counterexample to claim C6 as stated: a send landing exactly 1 ms after
a mock-reply resolution reuses the agent message's id. Send at clock 1000
(user id `"1000"`), reply fires at clock 2000 (agent id `"2001"`), second
send at clock 2001 (user id `"2001"` — duplicate). -/
theorem chat_duplicate_ids_counterexample :
    ((Chat.run (Chat.initialState 0)
        [Chat.Event.setDraft "hi", Chat.Event.pressEnter 1000, Chat.Event.fireTimer 2000,
         Chat.Event.setDraft "yo", Chat.Event.clickSend 2001]).messages.map (fun m => m.id))
      = ["1", "1000", "2001", "2001"]
    ∧ ¬ ((Chat.run (Chat.initialState 0)
        [Chat.Event.setDraft "hi", Chat.Event.pressEnter 1000, Chat.Event.fireTimer 2000,
         Chat.Event.setDraft "yo", Chat.Event.clickSend 2001]).messages.map
        (fun m => m.id)).Nodup :=
  ⟨by decide, by decide⟩

/-- Claim C1 (refuted by the code, supporting the code-bug finding): with
`awaitingReply` (`isLoading`) true after a send at clock 1000, a send
triggered through the send button is a no-op (the button is disabled), but
the Enter key's `onKeyPress` calls `handleSendMessage` without consulting
`isLoading`: pressing Enter at clock 1500 with draft `"second"` appends a
third message with id `"1500"` and schedules a second mock-reply timer, so
`appendUserMessage` is not a no-op while `awaitingReply` is true. -/
theorem chat_enter_send_while_loading_appends :
    (Chat.run (Chat.initialState 0)
        [Chat.Event.setDraft "first", Chat.Event.pressEnter 1000,
         Chat.Event.setDraft "second"]).isLoading = true
    ∧ Chat.step (Chat.run (Chat.initialState 0)
        [Chat.Event.setDraft "first", Chat.Event.pressEnter 1000,
         Chat.Event.setDraft "second"]) (Chat.Event.clickSend 1500)
      = Chat.run (Chat.initialState 0)
        [Chat.Event.setDraft "first", Chat.Event.pressEnter 1000, Chat.Event.setDraft "second"]
    ∧ (Chat.run (Chat.initialState 0)
        [Chat.Event.setDraft "first", Chat.Event.pressEnter 1000,
         Chat.Event.setDraft "second", Chat.Event.pressEnter 1500]).messages.map (fun m => m.id)
      = ["1", "1000", "1500"]
    ∧ (Chat.run (Chat.initialState 0)
        [Chat.Event.setDraft "first", Chat.Event.pressEnter 1000,
         Chat.Event.setDraft "second", Chat.Event.pressEnter 1500]).timers = [2000, 2500] :=
  ⟨by decide, by decide, by decide, by decide⟩

/-- Claim C2: on a conversation state that is not awaiting a reply (per the
spec invariant such a state also has no pending mock-reply timer) and a
draft that is non-empty after trimming, `appendUserMessage` immediately
appends exactly one user message carrying the draft text, clears the draft
and sets `awaitingReply`; when the 1000 ms timer scheduled by that send
fires, exactly one agent message has been appended after the user message
and `awaitingReply` is false again. -/
theorem chat_appendUserMessage_success (s : Chat.ChatState) (text : String) (now : Nat)
    (_hload : s.isLoading = false) (htimers : s.timers = [])
    (htext : jsTrim text ≠ "") :
    (Chat.appendUserMessage text now s).messages
      = s.messages
        ++ [{ id := Nat.repr now, type := Chat.Author.user, content := text, timestamp := now }]
    ∧ (Chat.appendUserMessage text now s).inputMessage = ""
    ∧ (Chat.appendUserMessage text now s).isLoading = true
    ∧ (Chat.appendUserMessage text now s).timers = [now + 1000]
    ∧ (Chat.step (Chat.appendUserMessage text now s) (Chat.Event.fireTimer (now + 1000))).messages
      = s.messages
        ++ [{ id := Nat.repr now, type := Chat.Author.user, content := text, timestamp := now },
            { id := Nat.repr (now + 1000 + 1), type := Chat.Author.agent,
              content := Chat.cannedReplyText, timestamp := now + 1000 }]
    ∧ (Chat.step (Chat.appendUserMessage text now s)
        (Chat.Event.fireTimer (now + 1000))).isLoading = false := by
  have hmain : Chat.appendUserMessage text now s
      = { messages := s.messages
            ++ [{ id := Nat.repr now, type := Chat.Author.user, content := text, timestamp := now }]
          inputMessage := ""
          isLoading := true
          timers := [now + 1000] } := by
    simp [Chat.appendUserMessage, Chat.handleSendMessage, htext, htimers]
  rw [hmain]
  refine ⟨rfl, rfl, rfl, rfl, ?_, ?_⟩ <;>
    simp [Chat.step, Chat.mockReplyFire]

/-- Witness for `chat_appendUserMessage_success`: sending `"hi"` at clock
1000 from the freshly mounted conversation. -/
theorem chat_appendUserMessage_success_witness :
    (Chat.initialState 0).isLoading = false
    ∧ (Chat.initialState 0).timers = []
    ∧ jsTrim "hi" ≠ ""
    ∧ ((Chat.appendUserMessage "hi" 1000 (Chat.initialState 0)).messages
        = (Chat.initialState 0).messages
          ++ [{ id := Nat.repr 1000, type := Chat.Author.user, content := "hi", timestamp := 1000 }]
      ∧ (Chat.appendUserMessage "hi" 1000 (Chat.initialState 0)).inputMessage = ""
      ∧ (Chat.appendUserMessage "hi" 1000 (Chat.initialState 0)).isLoading = true
      ∧ (Chat.appendUserMessage "hi" 1000 (Chat.initialState 0)).timers = [1000 + 1000]
      ∧ (Chat.step (Chat.appendUserMessage "hi" 1000 (Chat.initialState 0))
          (Chat.Event.fireTimer (1000 + 1000))).messages
        = (Chat.initialState 0).messages
          ++ [{ id := Nat.repr 1000, type := Chat.Author.user, content := "hi", timestamp := 1000 },
              { id := Nat.repr (1000 + 1000 + 1), type := Chat.Author.agent,
                content := Chat.cannedReplyText, timestamp := 1000 + 1000 }]
      ∧ (Chat.step (Chat.appendUserMessage "hi" 1000 (Chat.initialState 0))
          (Chat.Event.fireTimer (1000 + 1000))).isLoading = false) :=
  ⟨rfl, rfl, by decide,
   chat_appendUserMessage_success (Chat.initialState 0) "hi" 1000 rfl rfl (by decide)⟩


/-- Claim C8: `appendUserMessage` applied to any text that is empty after
trimming (the empty string, `"   "`, ...) is a no-op: the handler returns
before touching any state, so the message sequence, the draft and
`awaitingReply` are all unchanged, and no timer is scheduled. -/
theorem chat_appendUserMessage_blank_noop (s : Chat.ChatState) (text : String) (now : Nat)
    (h : jsTrim text = "") :
    Chat.appendUserMessage text now s = { s with inputMessage := text }
    ∧ (Chat.appendUserMessage text now s).messages = s.messages
    ∧ (Chat.appendUserMessage text now s).inputMessage = text
    ∧ (Chat.appendUserMessage text now s).isLoading = s.isLoading
    ∧ (Chat.appendUserMessage text now s).timers = s.timers := by
  have hmain : Chat.appendUserMessage text now s = { s with inputMessage := text } := by
    simp [Chat.appendUserMessage, Chat.handleSendMessage, h]
  exact ⟨hmain, by rw [hmain], by rw [hmain], by rw [hmain], by rw [hmain]⟩

/-- Witness for `chat_appendUserMessage_blank_noop`: sending the
whitespace draft `"   "` at clock 5 from the freshly mounted conversation
changes nothing. -/
theorem chat_appendUserMessage_blank_noop_witness :
    jsTrim "   " = ""
    ∧ (Chat.appendUserMessage "   " 5 (Chat.initialState 0)
        = { Chat.initialState 0 with inputMessage := "   " }
      ∧ (Chat.appendUserMessage "   " 5 (Chat.initialState 0)).messages
        = (Chat.initialState 0).messages
      ∧ (Chat.appendUserMessage "   " 5 (Chat.initialState 0)).inputMessage = "   "
      ∧ (Chat.appendUserMessage "   " 5 (Chat.initialState 0)).isLoading
        = (Chat.initialState 0).isLoading
      ∧ (Chat.appendUserMessage "   " 5 (Chat.initialState 0)).timers
        = (Chat.initialState 0).timers) :=
  ⟨by decide, chat_appendUserMessage_blank_noop (Chat.initialState 0) "   " 5 (by decide)⟩

/-- Claim C10: the conversation mounts with exactly one message — an agent
message carrying the non-empty greeting — an empty draft and
`awaitingReply` false, so the first successful `appendUserMessage` yields
a sequence of length 2. -/
theorem chat_initial_state_greeting (t0 : Nat) (text : String) (now : Nat)
    (h : jsTrim text ≠ "") :
    (Chat.initialState t0).messages.length = 1
    ∧ (Chat.initialState t0).messages.map (fun m => m.type) = [Chat.Author.agent]
    ∧ (Chat.initialState t0).messages.map (fun m => m.content) = [Chat.greetingText]
    ∧ Chat.greetingText ≠ ""
    ∧ (Chat.initialState t0).inputMessage = ""
    ∧ (Chat.initialState t0).isLoading = false
    ∧ (Chat.appendUserMessage text now (Chat.initialState t0)).messages.length = 2 := by
  refine ⟨rfl, rfl, rfl, by decide, rfl, rfl, ?_⟩
  simp [Chat.appendUserMessage, Chat.handleSendMessage, Chat.initialState, h]

/-- Witness for `chat_initial_state_greeting`: mounting at clock 0 and
sending `"hi"` at clock 7. -/
theorem chat_initial_state_greeting_witness :
    jsTrim "hi" ≠ ""
    ∧ ((Chat.initialState 0).messages.length = 1
      ∧ (Chat.initialState 0).messages.map (fun m => m.type) = [Chat.Author.agent]
      ∧ (Chat.initialState 0).messages.map (fun m => m.content) = [Chat.greetingText]
      ∧ Chat.greetingText ≠ ""
      ∧ (Chat.initialState 0).inputMessage = ""
      ∧ (Chat.initialState 0).isLoading = false
      ∧ (Chat.appendUserMessage "hi" 7 (Chat.initialState 0)).messages.length = 2) :=
  ⟨by decide, chat_initial_state_greeting 0 "hi" 7 (by decide)⟩

/-- Claim C3: the Simulate Impact button — the only way `handleSimulate`
is invoked — changes no state whenever the description is empty, the
carbs field is empty, or a simulation is already pending (the button is
disabled); otherwise it sets `isSimulating` and schedules the 2000 ms
mock delay. -/
theorem mealsim_simulate_guard (s : MealSim.MealSimState) (now : Nat) :
    MealSim.clickSimulate now s =
      if s.mealForm.description = "" ∨ s.mealForm.carbs = "" ∨ s.isSimulating = true then s
      else { s with isSimulating := true, timers := s.timers ++ [now + 2000] } := by
  by_cases h1 : s.mealForm.description = "" <;>
  by_cases h2 : s.mealForm.carbs = "" <;>
  by_cases h3 : s.isSimulating = true <;>
  simp [MealSim.clickSimulate, MealSim.simulateButtonEnabled, MealSim.handleSimulate, h1, h2, h3]

/-- Counterexample to claim C4 as stated: applying the fixed preset
"Oatmeal with Banana" to a form whose insulin field holds `"4"` does not
leave `insulinUnits` as-is — the preset click assigns a whole new form
with `insulin: ""`. -/
theorem mealsim_applyPreset_insulin_counterexample :
    Fixtures.oatmealPreset ∈ MealSim.presetMeals
    ∧ Fixtures.insulinForm.mealForm.insulin = "4"
    ∧ (MealSim.applyPreset Fixtures.oatmealPreset Fixtures.insulinForm).mealForm.insulin
      ≠ Fixtures.insulinForm.mealForm.insulin :=
  ⟨by decide, by decide, by decide⟩

/-- Claim C4 (amended): for every preset among the fixed preset meals and
every simulator state, `applyPreset(p)` sets description to `p.name`,
carbs to `p.carbs` and glycemic index to `p.gi`, and clears the insulin
field to the empty string (rather than leaving it as-is); the rest of the
component state is untouched. -/
theorem mealsim_applyPreset_fields (p : MealSim.Preset) (_hp : p ∈ MealSim.presetMeals)
    (s : MealSim.MealSimState) :
    (MealSim.applyPreset p s).mealForm.description = p.name
    ∧ (MealSim.applyPreset p s).mealForm.carbs = p.carbs
    ∧ (MealSim.applyPreset p s).mealForm.gi = p.gi
    ∧ (MealSim.applyPreset p s).mealForm.insulin = ""
    ∧ (MealSim.applyPreset p s).isSimulating = s.isSimulating
    ∧ (MealSim.applyPreset p s).showPrediction = s.showPrediction
    ∧ (MealSim.applyPreset p s).timers = s.timers :=
  ⟨rfl, rfl, rfl, rfl, rfl, rfl, rfl⟩

/-- Witness for `mealsim_applyPreset_fields`: the first preset applied to
a state whose insulin field holds `"4"`. -/
theorem mealsim_applyPreset_fields_witness :
    Fixtures.oatmealPreset ∈ MealSim.presetMeals
    ∧ ((MealSim.applyPreset Fixtures.oatmealPreset Fixtures.insulinForm).mealForm.description
        = Fixtures.oatmealPreset.name
      ∧ (MealSim.applyPreset Fixtures.oatmealPreset Fixtures.insulinForm).mealForm.carbs
        = Fixtures.oatmealPreset.carbs
      ∧ (MealSim.applyPreset Fixtures.oatmealPreset Fixtures.insulinForm).mealForm.gi
        = Fixtures.oatmealPreset.gi
      ∧ (MealSim.applyPreset Fixtures.oatmealPreset Fixtures.insulinForm).mealForm.insulin = ""
      ∧ (MealSim.applyPreset Fixtures.oatmealPreset Fixtures.insulinForm).isSimulating
        = Fixtures.insulinForm.isSimulating
      ∧ (MealSim.applyPreset Fixtures.oatmealPreset Fixtures.insulinForm).showPrediction
        = Fixtures.insulinForm.showPrediction
      ∧ (MealSim.applyPreset Fixtures.oatmealPreset Fixtures.insulinForm).timers
        = Fixtures.insulinForm.timers) :=
  ⟨by decide,
   mealsim_applyPreset_fields Fixtures.oatmealPreset (by decide) Fixtures.insulinForm⟩

/-- Claim C5: from an enabled, idle simulator state (per the spec
invariant an idle state has no pending timer), clicking Simulate Impact
schedules exactly one timer 2000 ms out; when it fires, `pending` is
false, the prediction is shown, and the displayed `predictionData` series
has exactly 13 points whose minute offsets are 0, 15, ..., 180, strictly
increasing (each row of the series carries one `predicted_glucose` and
one `baseline` value by construction of `PredictionPoint`). -/
theorem mealsim_simulation_resolution (s : MealSim.MealSimState) (now : Nat)
    (hd : s.mealForm.description ≠ "") (hc : s.mealForm.carbs ≠ "")
    (hp : s.isSimulating = false) (ht : s.timers = []) :
    (MealSim.clickSimulate now s).isSimulating = true
    ∧ (MealSim.clickSimulate now s).timers = [now + 2000]
    ∧ (MealSim.fireSimulation (now + 2000) (MealSim.clickSimulate now s)).isSimulating = false
    ∧ (MealSim.fireSimulation (now + 2000) (MealSim.clickSimulate now s)).showPrediction = true
    ∧ MealSim.predictionData.length = 13
    ∧ MealSim.predictionData.map (fun q => q.time)
      = [0, 15, 30, 45, 60, 75, 90, 105, 120, 135, 150, 165, 180]
    ∧ List.Pairwise (fun a b => a < b) (MealSim.predictionData.map (fun q => q.time)) := by
  have hstep : MealSim.clickSimulate now s
      = { s with isSimulating := true, timers := [now + 2000] } := by
    simp [MealSim.clickSimulate, MealSim.simulateButtonEnabled, MealSim.handleSimulate,
      hd, hc, hp, ht]
  refine ⟨by rw [hstep], by rw [hstep], ?_, ?_, by decide, by decide, by decide⟩ <;>
    rw [hstep] <;> simp [MealSim.fireSimulation, MealSim.simulationFire]

/-- Witness for `mealsim_simulation_resolution`: simulating a filled-in
form (description `"Toast"`, carbs `"30"`) at clock 0. -/
theorem mealsim_simulation_resolution_witness :
    Fixtures.toastForm.mealForm.description ≠ ""
    ∧ Fixtures.toastForm.mealForm.carbs ≠ ""
    ∧ ((MealSim.clickSimulate 0 Fixtures.toastForm).isSimulating = true
      ∧ (MealSim.clickSimulate 0 Fixtures.toastForm).timers = [0 + 2000]
      ∧ (MealSim.fireSimulation (0 + 2000)
          (MealSim.clickSimulate 0 Fixtures.toastForm)).isSimulating = false
      ∧ (MealSim.fireSimulation (0 + 2000)
          (MealSim.clickSimulate 0 Fixtures.toastForm)).showPrediction = true
      ∧ MealSim.predictionData.length = 13
      ∧ MealSim.predictionData.map (fun q => q.time)
        = [0, 15, 30, 45, 60, 75, 90, 105, 120, 135, 150, 165, 180]
      ∧ List.Pairwise (fun a b => a < b) (MealSim.predictionData.map (fun q => q.time))) :=
  ⟨by decide, by decide,
   mealsim_simulation_resolution Fixtures.toastForm 0 (by decide) (by decide) rfl rfl⟩

/-- Claim C7: the Trends render is a constant function of the stored
state — any two states (which can differ only in the date range and meal
filter, the only stored fields) display the identical series and summary
statistics, the series always being the fixed sample dataset; in
particular the date-range and meal-filter setters have no effect on the
rendered view. -/
theorem trends_filter_noninterference (s1 s2 : Trends.TrendsState) (v : String) :
    Trends.renderTrends s1 = Trends.renderTrends s2
    ∧ (Trends.renderTrends s1).series = Trends.glucoseData
    ∧ Trends.renderTrends (Trends.setStartDate v s1) = Trends.renderTrends s1
    ∧ Trends.renderTrends (Trends.setEndDate v s1) = Trends.renderTrends s1
    ∧ Trends.renderTrends (Trends.setMealFilter v s1) = Trends.renderTrends s1 :=
  ⟨rfl, rfl, rfl, rfl, rfl⟩

/-- Claim C9: `isActive(currentPath, itemPath)` returns true exactly when
the two path strings are equal — no prefix matching — and in particular
accepts `/trends` against itself and rejects `/trends/x`; as a plain
Lean function it is total and has no side effects. -/
theorem nav_isActive_exact_match (currentPath path : String) :
    (Nav.isActive currentPath path = true ↔ currentPath = path)
    ∧ Nav.isActive "/trends" "/trends" = true
    ∧ Nav.isActive "/trends" "/trends/x" = false := by
  refine ⟨?_, by decide, by decide⟩
  simp [Nav.isActive]
